import Mathlib

/-!
Shallow embedding of the Nebius-Debate-AI repository (src/config.py,
src/api_client.py, src/debate_engine.py) and proofs about the claims of
its specification.

Conventions of the embedding:
* Python dataclasses become Lean structures; `Dict[str, X]` (insertion
  ordered) becomes `List (String × X)`.
* Code that can raise a Python exception is embedded as a function into
  `Except PyExc α`; a `.error` value is a raised exception.
* `time.time()` timestamps are abstracted to the constant `0` — no claim
  depends on wall-clock readings.
* `random.choice(xs)` is given an explicit oracle argument `r : Nat` and
  picks `xs[r % len(xs)]`; on an empty list it raises, as in Python.
* Floating-point configuration knobs (`0.7`, `0.95`, …) are embedded as
  rationals; every comparison the code performs on them is exact at these
  values, so the embedding is faithful.
-/

namespace DebateAI

/-! Exact rational values of the floating-point literals of the source.
They are written with explicit numerator/denominator so that every
comparison the program performs on them evaluates inside the kernel.
Each comparison the code makes on these values has the same outcome
under IEEE doubles and under exact rationals, so the embedding is
faithful. -/

/-- The value `0.2` (used only as a test input below `0.4`). -/
def q02 : ℚ := ⟨1, 5, by decide, by decide⟩

/-- The float literal `0.4`. -/
def q04 : ℚ := ⟨2, 5, by decide, by decide⟩

/-- The float literal `0.5`. -/
def q05 : ℚ := ⟨1, 2, by decide, by decide⟩

/-- The float literal `0.6`. -/
def q06 : ℚ := ⟨3, 5, by decide, by decide⟩

/-- The float literal `0.7`. -/
def q07 : ℚ := ⟨7, 10, by decide, by decide⟩

/-- The float literal `0.8`. -/
def q08 : ℚ := ⟨4, 5, by decide, by decide⟩

/-- The float literal `0.95`. -/
def q095 : ℚ := ⟨19, 20, by decide, by decide⟩

/-- Python's whitespace set for `str.strip()`. -/
def pySpace (c : Char) : Bool :=
  c = ' ' || c = '\t' || c = '\n' || c = '\r' || c = '\x0b' || c = '\x0c'

/-- Python's `s.strip()`. -/
def pyStrip (s : String) : String :=
  String.mk (((s.toList.dropWhile pySpace).reverse.dropWhile pySpace).reverse)

/-- Python's `s.lower()` (ASCII as used by this program). -/
def strLower (s : String) : String :=
  String.mk (s.toList.map Char.toLower)

/-- A raised Python exception, as observable by a caller: either a
`requests.exceptions.RequestException` (or subclass) or any other
`Exception`.  The string is `str(e)`. -/
inductive PyExc where
  | requestException (msg : String)
  | otherException (msg : String)
deriving DecidableEq, Repr

/-- `StanceType` enum from src/debate_engine.py. -/
inductive StanceType where
  | left
  | right
  | neutral
deriving DecidableEq, Repr

/-- `.value` of a `StanceType` member. -/
def StanceType.value : StanceType → String
  | .left => "left"
  | .right => "right"
  | .neutral => "neutral"

/-- `StanceType(s)` constructor lookup: `none` models the `ValueError`
raised on an unrecognised value. -/
def StanceType.ofString : String → Option StanceType
  | "left" => some .left
  | "right" => some .right
  | "neutral" => some .neutral
  | _ => none

/-- `DebateStatus` enum from src/debate_engine.py. -/
inductive DebateStatus where
  | not_started
  | in_progress
  | concluded
  | error
deriving DecidableEq, Repr

/-- `DebatePhase` enum from src/debate_engine.py. -/
inductive DebatePhase where
  | opening
  | exploration
  | confrontation
  | resolution
  | reflection
deriving DecidableEq, Repr

/-- Position of a phase in the fixed ordering
opening < exploration < confrontation < resolution < reflection. -/
def phaseRank : DebatePhase → Nat
  | .opening => 0
  | .exploration => 1
  | .confrontation => 2
  | .resolution => 3
  | .reflection => 4

/-- `Message` dataclass from src/debate_engine.py.  `metadata` is a
string-keyed map whose only values in this program are strings
(`{"agent_name": ...}`), embedded as an association list. -/
structure Message where
  role : String
  content : String
  model : String
  timestamp : Int
  stance : Option StanceType
  metadata : List (String × String)
deriving DecidableEq, Repr

/-- The dict produced by `Message.to_dict` (and by the engine's
`_serialize_message`, which computes the same six fields). -/
structure MessageDict where
  role : String
  content : String
  model : String
  timestamp : Int
  stance : Option String
  metadata : List (String × String)
deriving DecidableEq, Repr

/-- `Message.to_dict`: `stance` becomes `self.stance.value if self.stance
else None`. -/
def Message.to_dict (m : Message) : MessageDict :=
  { role := m.role
    content := m.content
    model := m.model
    timestamp := m.timestamp
    stance := m.stance.map StanceType.value
    metadata := m.metadata }

/-- `Message.from_dict`.  The guard `if 'stance' in data and data['stance']:`
converts the stance string back through `StanceType(...)` only when it is
truthy; `None` is passed through unconverted.  A present-but-falsy string
(only `""`) would be stored unconverted by Python, leaving an ill-typed
stance field; that value has no representative in the typed `Message` and
is mapped to `none` (failure) here — `to_dict` never produces it, since
every `StanceType.value` is non-empty.  An unrecognised non-empty string
raises `ValueError` in Python, hence `none`. -/
def Message.from_dict (d : MessageDict) : Option Message :=
  match d.stance with
  | none =>
      some { role := d.role, content := d.content, model := d.model,
             timestamp := d.timestamp, stance := none, metadata := d.metadata }
  | some s =>
      if s = "" then
        none
      else
        (StanceType.ofString s).map fun st =>
          { role := d.role, content := d.content, model := d.model,
            timestamp := d.timestamp, stance := some st, metadata := d.metadata }

/-! ## Response Client (src/api_client.py) -/

/-- Shape of the JSON body of a completion response, as far as
`AIClient.generate_response` inspects it. -/
inductive BodyShape where
  /-- `response.json()` raises (invalid JSON). -/
  | invalidJson (msg : String)
  /-- `response_json.get('choices')` is falsy: key missing, `None`, or `[]`. -/
  | noChoices
  /-- `choices` is non-empty but `choices[0]['message']['content']` lookup
  raises (`KeyError`/`TypeError`/...). -/
  | malformedChoice (msg : String)
  /-- `choices[0]['message']['content']` is the string `s`. -/
  | withContent (s : String)
deriving DecidableEq, Repr

/-- Outcome of the `requests.post` call made by the client. -/
inductive CallOutcome where
  /-- `requests.post` itself raises a `RequestException` (transport failure). -/
  | transportError (msg : String)
  /-- An HTTP response with the given status code and body. -/
  | response (status : Nat) (body : BodyShape)
deriving DecidableEq, Repr

/-- The sentinel text returned for an empty completion. -/
def emptyResponseText : String := "The AI model returned an empty response."

/-- `response.raise_for_status()`: raises `requests.exceptions.HTTPError`
(a `RequestException` subclass) for status codes `>= 400`. -/
def raise_for_status (status : Nat) : Except PyExc Unit :=
  if 400 ≤ status then .error (.requestException ("HTTP error " ++ toString status))
  else .ok ()

/-- The body of the `try:` block of `AIClient.generate_response`, before
the `except` handlers: post, `raise_for_status`, `.json()`, the two
empty-response checks, and the content extraction.  `.json()` failures are
embedded as generic exceptions; whether `requests` raises its
`JSONDecodeError` (a `RequestException` subclass) or a bare `ValueError`,
both handlers produce the same result below. -/
def generate_response_try (o : CallOutcome) : Except PyExc String :=
  match o with
  | .transportError m => .error (.requestException m)
  | .response status body =>
    match raise_for_status status with
    | .error e => .error e
    | .ok _ =>
      match body with
      | .invalidJson m => .error (.otherException m)
      | .noChoices => .ok emptyResponseText
      | .malformedChoice m => .error (.otherException m)
      | .withContent s =>
          if pyStrip s = "" then .ok emptyResponseText else .ok s

/-- `AIClient.generate_response`: the `try:` body wrapped in the
`except requests.exceptions.RequestException` / `except Exception`
handlers, both of which return `f"Error generating response: {e}"`.
The result type is still `Except` so that an escaped exception would be
observable; the handlers make that impossible. -/
def generate_response (o : CallOutcome) : Except PyExc String :=
  match generate_response_try o with
  | .ok s => .ok s
  | .error (.requestException m) => .ok ("Error generating response: " ++ m)
  | .error (.otherException m) => .ok ("Error generating response: " ++ m)

/-! ## Configuration (src/config.py)

`AgentConfig` keeps the fields the engine reads.  `emoji`, `color`,
`debate_persona`, `trigger_topics` and the prompt text are presentation
data never read by the engine or the client, and are omitted.  Of
`RhetoricalStrategy`, the engine reads `primary_style` (a `DebateStyle`
value string) and `trigger_phrases`; the remaining lists are never read. -/

structure AgentCfg where
  name : String
  model : String
  stance : String
  primary_style : String
  trigger_phrases : List String
  core_beliefs : List String
  counter_arguments : List (String × List String)
deriving DecidableEq, Repr

/-- `AppConfig` fields read by the client and the engine.  `agents` is the
insertion-ordered dict `config.agents`. -/
structure AppCfg where
  api_base : String := "https://api.studio.nebius.ai/v1/chat/completions"
  max_tokens : Nat := 500
  temperature : ℚ := q095
  top_p : ℚ := q095
  frequency_penalty : ℚ := q05
  presence_penalty : ℚ := q05
  api_key : String := ""
  agents : List (String × AgentCfg) := []
deriving DecidableEq, Repr

/-- The two agents installed by `AppConfig.__post_init__` (which always
overwrites `self.agents` with exactly this table). -/
def defaultAgents : List (String × AgentCfg) :=
  [("progressive",
    { name := "Radical Progressive"
      model := "meta-llama/Llama-3.3-70B-Instruct"
      stance := "left"
      primary_style := "aggressive"
      trigger_phrases :=
        ["personal responsibility", "traditional values",
         "market solutions", "individual merit"]
      core_beliefs :=
        ["All systems are tools of oppression",
         "Individual success is purely systemic privilege",
         "Traditional values perpetuate oppression",
         "Radical change is the only solution",
         "Opposition views promote harm"]
      counter_arguments :=
        [("merit", ["Merit is a myth created by oppressors"]),
         ("tradition", ["Traditions are tools of oppression"]),
         ("markets", ["Markets perpetuate inequality"]),
         ("individual_rights", ["Individual rights enable oppression"])] }),
   ("conservative",
    { name := "Hardline Conservative"
      model := "Qwen/Qwen2.5-32B-Instruct"
      stance := "right"
      primary_style := "confrontational"
      trigger_phrases :=
        ["social justice", "systemic change", "privilege", "oppression"]
      core_beliefs :=
        ["Personal failure is the only cause of problems",
         "Traditional values are absolutely correct",
         "Change is moral decay",
         "Opposition views destroy society",
         "Individual responsibility is absolute"]
      counter_arguments :=
        [("systemic", ["Systems don't cause personal failure"]),
         ("change", ["Change destroys social fabric"]),
         ("collective", ["Collective action is socialism"]),
         ("reform", ["Reform undermines values"])] })]

/-- `self.config.agents[agent_name]` — the name is always one of the dict
keys at each call site, so the default is never reached there. -/
def lookupAgent (agents : List (String × AgentCfg)) (agent_name : String) : AgentCfg :=
  match agents.find? (fun p => p.1 = agent_name) with
  | some p => p.2
  | none =>
      { name := "", model := "", stance := "", primary_style := ""
        trigger_phrases := [], core_beliefs := [], counter_arguments := [] }

/-! ## Outbound request (C9)

The `data` dict built by `AIClient.generate_response` before posting. -/

/-- The JSON body of the outbound request: exactly the four keys the code
puts in `data`. -/
structure RequestData where
  model : String
  messages : List MessageDict
  max_tokens : Nat
  temperature : ℚ
deriving DecidableEq, Repr

/-- Construction of `data` in `AIClient.generate_response` (lines 19-24):
`{"model": model, "messages": messages, "max_tokens":
self.config.max_tokens, "temperature": self.config.temperature}`. -/
def buildRequest (cfg : AppCfg) (messages : List MessageDict) (model : String) :
    RequestData :=
  { model := model
    messages := messages
    max_tokens := cfg.max_tokens
    temperature := cfg.temperature }

/-- The set of top-level keys present in the outbound request body. -/
def RequestData.keys (_ : RequestData) : List String :=
  ["model", "messages", "max_tokens", "temperature"]

/-! ## Base engine (`DebateEngine`, src/debate_engine.py) -/

/-- State of a `DebateEngine`.  `calls` is instrumentation absent from the
source: it counts invocations of `self.client.generate_response`, so that
theorems can speak about whether the client was contacted. -/
structure BaseState where
  agents : List (String × AgentCfg)
  conversation : List Message
  status : DebateStatus
  current_agent_index : Nat
  error_count : Nat
  max_errors : Nat
  calls : Nat
deriving DecidableEq, Repr

/-- `_generate_agent_prompt`: `f"You are {agent.name} with {agent.stance}
stance."`. -/
def generate_agent_prompt (a : AgentCfg) : String :=
  "You are " ++ a.name ++ " with " ++ a.stance ++ " stance."

/-- The system message appended by `_initialize_conversation` for one
agent.  `StanceType(agent.stance)` raises `ValueError` on an invalid
stance string; the embedding stores `none` there instead.  The two agree
on every configuration with valid stance strings — in particular on the
shipped one, the only place the stance field is inspected by a claim —
and no claim concerns construction over an invalid configuration.  Note
the metadata here uses `agent.name` (the display name), not the dict
key. -/
def systemMessage (a : AgentCfg) : Message :=
  { role := "system"
    content := generate_agent_prompt a
    model := a.model
    timestamp := 0
    stance := StanceType.ofString a.stance
    metadata := [("agent_name", a.name)] }

/-- `DebateEngine.__init__` followed by `_initialize_conversation`. -/
def initBase (agents : List (String × AgentCfg)) : BaseState :=
  { agents := agents
    conversation := agents.map fun p => systemMessage p.2
    status := .not_started
    current_agent_index := 0
    error_count := 0
    max_errors := 3
    calls := 0 }

/-- `add_user_message`. -/
def add_user_message (s : BaseState) (message_content : String) : BaseState :=
  { s with conversation := s.conversation ++
      [{ role := "user", content := message_content, model := "",
         timestamp := 0, stance := none, metadata := [] }] }

/-- The index expression of `_select_next_agent`:
`agent_names[self.current_agent_index % len(agent_names)]`. -/
def selectNextAgentName (s : BaseState) : String :=
  (s.agents.map Prod.fst).getD (s.current_agent_index % s.agents.length) ""

/-- `_select_next_agent`: returns the selected name and bumps the cursor
(without wrapping the stored value).  The `ZeroDivisionError` Python
raises on an empty agent table is handled by the caller embedding
(`baseTurn`) before this function is used. -/
def select_next_agent (s : BaseState) : String × BaseState :=
  (selectNextAgentName s,
   { s with current_agent_index := s.current_agent_index + 1 })

/-- The assistant message appended by `DebateEngine.generate_responses`
for agent `agent_name` with client result `response`.  Metadata here uses
the dict key, unlike the seeded system messages. -/
def assistantMessage (cfg : AgentCfg) (agent_name response : String) : Message :=
  { role := "assistant"
    content := response
    model := cfg.model
    timestamp := 0
    stance := StanceType.ofString cfg.stance
    metadata := [("agent_name", agent_name)] }

/-- A client oracle: what the HTTP world answers to a given posted
request (serialized messages and model id), per call. -/
def ClientOracle : Type := List MessageDict → String → CallOutcome

/-- One iteration of the loop body of `DebateEngine.generate_responses`:
select the agent, serialize the conversation, call the client, append the
assistant message.  The status field, `error_count` and `max_errors` are
not touched — the source never reads or writes them here. -/
def baseTurn (oracle : ClientOracle) (s : BaseState) :
    Except PyExc (BaseState × String) :=
  if s.agents = [] then
    .error (.otherException "ZeroDivisionError: integer modulo by zero")
  else
    let sel := select_next_agent s
    let agent_name := sel.1
    let s1 := sel.2
    let messages := s1.conversation.map Message.to_dict
    let cfg := lookupAgent s1.agents agent_name
    match generate_response (oracle messages cfg.model) with
    | .error e => .error e
    | .ok response =>
        .ok ({ s1 with
                conversation := s1.conversation ++
                  [assistantMessage cfg agent_name response]
                calls := s1.calls + 1 },
             response)

/-- `DebateEngine.generate_responses(num_turns)`: iterate the loop body,
collecting the responses in order. -/
def generate_responses (oracle : ClientOracle) (s : BaseState) :
    Nat → Except PyExc (BaseState × List String)
  | 0 => .ok (s, [])
  | n + 1 =>
    match baseTurn oracle s with
    | .error e => .error e
    | .ok (s1, r) =>
      match generate_responses oracle s1 n with
      | .error e => .error e
      | .ok (s2, rs) => .ok (s2, r :: rs)

/-- State evolution only: `n` consecutive single turns of the base
engine (also the state effect of `generate_responses(n)`). -/
def runTurnsB (oracle : ClientOracle) (s : BaseState) :
    Nat → Except PyExc BaseState
  | 0 => .ok s
  | n + 1 =>
    match baseTurn oracle s with
    | .error e => .error e
    | .ok (s1, _) => runTurnsB oracle s1 n

/-! ## Argument structures (src/debate_engine.py, `ArgumentStructure`) -/

structure ArgumentStructure where
  premises : List String
  conclusion : String
  supporting_evidence : List String
  counter_arguments : List String
  fallback_positions : List String
deriving DecidableEq, Repr

/-- `random.choice(xs)` with an explicit oracle `r`; raises `IndexError`
on an empty list, as Python does. -/
def pyChoice {α : Type} (xs : List α) (r : Nat) (default : α) :
    Except PyExc α :=
  if xs.length = 0 then
    .error (.otherException "IndexError: list index out of range")
  else .ok (xs.getD (r % xs.length) default)

/-- `confidence_tier = max(k for k in strength_modifiers.keys() if
confidence >= k)` over the keys `{0.8, 0.6, 0.4}`; an empty generator
(confidence < 0.4) makes `max()` raise `ValueError`. -/
def confidenceTier (confidence : ℚ) : Except PyExc ℚ :=
  if q08 ≤ confidence then .ok q08
  else if q06 ≤ confidence then .ok q06
  else if q04 ≤ confidence then .ok q04
  else .error (.otherException "ValueError: max() arg is an empty sequence")

/-- `strength_modifiers[confidence_tier]`. -/
def strengthModifiers (tier : ℚ) : List String :=
  if tier = q08 then ["Clearly", "Obviously", "Without doubt"]
  else if tier = q06 then ["Evidence suggests", "Research shows", "Studies indicate"]
  else if tier = q04 then ["One could argue", "It appears that", "Consider that"]
  else []

/-- `ArgumentStructure.strengthen_argument(confidence)`:
`f"{modifier}, {self.conclusion} because {random.choice(self.premises)}."`.
The two `random.choice` calls take oracles `rMod` and `rPrem`. -/
def strengthen_argument (a : ArgumentStructure) (confidence : ℚ)
    (rMod rPrem : Nat) : Except PyExc String :=
  match confidenceTier confidence with
  | .error e => .error e
  | .ok tier =>
    match pyChoice (strengthModifiers tier) rMod "" with
    | .error e => .error e
    | .ok modifier =>
      match pyChoice a.premises rPrem "" with
      | .error e => .error e
      | .ok premise =>
          .ok (modifier ++ ", " ++ a.conclusion ++ " because " ++ premise ++ ".")

/-! ## Enhanced engine (`EnhancedDebateEngine`) -/

/-- `needle in hay` on character lists: some suffix of `hay` starts with
`needle`. -/
def listStartsWith : List Char → List Char → Bool
  | [], _ => true
  | _ :: _, [] => false
  | a :: as, b :: bs => a = b && listStartsWith as bs

/-- Python's `needle in hay` substring test. -/
def pyIn (needle hay : String) : Bool :=
  go needle.toList hay.toList
where
  go (n : List Char) : List Char → Bool
    | [] => listStartsWith n []
    | c :: rest => listStartsWith n (c :: rest) || go n rest

/-- Enhanced `_generate_premises`. -/
def generate_premises (belief : String) : List String :=
  ["Support for " ++ belief, "Evidence for " ++ belief]

/-- Enhanced `_generate_evidence`. -/
def generate_evidence (belief : String) : List String :=
  ["Evidence A for " ++ belief, "Evidence B for " ++ belief]

/-- Enhanced `_generate_fallbacks`. -/
def generate_fallbacks (belief : String) : List String :=
  ["Fallback 1 for " ++ belief, "Fallback 2 for " ++ belief]

/-- `_build_argument_registry`: one entry per agent dict key; for each
core belief, an `ArgumentStructure` whose counter-arguments collect the
values of every `counter_arguments` key with `key.lower() in
belief.lower()`. -/
def build_argument_registry (agents : List (String × AgentCfg)) :
    List (String × List ArgumentStructure) :=
  agents.map fun p =>
    (p.1, p.2.core_beliefs.map fun belief =>
      { premises := generate_premises belief
        conclusion := belief
        supporting_evidence := generate_evidence belief
        counter_arguments :=
          p.2.counter_arguments.foldl
            (fun acc kv =>
              if pyIn (strLower kv.1) (strLower belief) then acc ++ kv.2 else acc)
            []
        fallback_positions := generate_fallbacks belief })

/-- `self.argument_registry.get(name, [])`. -/
def registryGet (reg : List (String × List ArgumentStructure)) (k : String) :
    List ArgumentStructure :=
  match reg.find? (fun p => p.1 = k) with
  | some p => p.2
  | none => []

/-- `self.argument_registry[name] = v`: dict update-or-insert. -/
def registrySet (reg : List (String × List ArgumentStructure)) (k : String)
    (v : List ArgumentStructure) : List (String × List ArgumentStructure) :=
  if (reg.find? (fun p => p.1 = k)).isSome then
    reg.map fun p => if p.1 = k then (k, v) else p
  else reg ++ [(k, v)]

/-- The default argument `_adapt_debate_strategy` creates when the
registry has no entry under `agent_config.name`. -/
def defaultArgument (agent_name : String) : ArgumentStructure :=
  { premises := ["Default premise for " ++ agent_name]
    conclusion := "Default position for " ++ agent_name
    supporting_evidence := []
    counter_arguments := []
    fallback_positions := [] }

/-- The strategy dict returned by `_adapt_debate_strategy`. -/
structure Strategy where
  rhetoric_style : String
  argument_structure : ArgumentStructure
  emotional_tone : ℚ
  strategic_focus : DebatePhase
deriving DecidableEq, Repr

/-- `_adapt_debate_strategy`: looks the registry up under
`agent_config.name` (the display name — note the registry was keyed by
the dict keys, so with the shipped configuration this lookup always
misses on first use), installs a default argument when the lookup is
empty, and picks `random.choice(available_arguments)` with oracle `rArg`.
`emotional_tone` is the literal `0.7`.  Returns the strategy together
with the (possibly mutated) registry. -/
def adapt_debate_strategy (reg : List (String × List ArgumentStructure))
    (cfg : AgentCfg) (phase : DebatePhase) (rArg : Nat) :
    Except PyExc (Strategy × List (String × List ArgumentStructure)) :=
  let available := registryGet reg cfg.name
  let pair :=
    if available = [] then
      ([defaultArgument cfg.name], registrySet reg cfg.name [defaultArgument cfg.name])
    else (available, reg)
  match pyChoice pair.1 rArg (defaultArgument cfg.name) with
  | .error e => .error e
  | .ok argument =>
      .ok ({ rhetoric_style := cfg.primary_style
             argument_structure := argument
             emotional_tone := q07
             strategic_focus := phase },
           pair.2)

/-- `_generate_strategic_response`: `argument.strengthen_argument(
strategy["emotional_tone"])`. -/
def generate_strategic_response (strategy : Strategy) (rMod rPrem : Nat) :
    Except PyExc String :=
  strengthen_argument strategy.argument_structure strategy.emotional_tone rMod rPrem

/-- Number of messages with `role == "assistant"` — the
`current_messages` count read by `_progress_debate_phase`. -/
def assistantCount (conversation : List Message) : Nat :=
  (conversation.filter fun m => m.role = "assistant").length

/-- `_progress_debate_phase`: iterate the `phase_transitions` table in
insertion order, fire the first row whose phase matches and whose
threshold is reached, then `break`.  Since the rows have pairwise
distinct source phases, at most one row can ever match. -/
def progress_debate_phase (p : DebatePhase) (current_messages : Nat) :
    DebatePhase :=
  if p = .opening ∧ 3 ≤ current_messages then .exploration
  else if p = .exploration ∧ 5 ≤ current_messages then .confrontation
  else if p = .confrontation ∧ 8 ≤ current_messages then .resolution
  else if p = .resolution ∧ 10 ≤ current_messages then .reflection
  else p

/-- State of an `EnhancedDebateEngine`.  It extends the base state with
the phase and the argument registry.  The `DebateAnalytics` and
`PersonalityDynamics` side statistics (`argument_effectiveness`,
`emotional_trajectories`) are write-only: no engine control path ever
reads them, so they are omitted from the state.  `calls` again counts
client invocations (the enhanced turn never makes one). -/
structure EnhState where
  agents : List (String × AgentCfg)
  conversation : List Message
  status : DebateStatus
  current_agent_index : Nat
  error_count : Nat
  max_errors : Nat
  calls : Nat
  current_phase : DebatePhase
  argument_registry : List (String × List ArgumentStructure)
deriving DecidableEq, Repr

/-- `EnhancedDebateEngine.__init__`: the inherited base initialisation
plus `current_phase = OPENING` and the built argument registry. -/
def initEnh (agents : List (String × AgentCfg)) : EnhState :=
  { agents := agents
    conversation := agents.map fun p => systemMessage p.2
    status := .not_started
    current_agent_index := 0
    error_count := 0
    max_errors := 3
    calls := 0
    current_phase := .opening
    argument_registry := build_argument_registry agents }

/-- `add_user_message` on the enhanced engine (inherited). -/
def addUserE (s : EnhState) (message_content : String) : EnhState :=
  { s with conversation := s.conversation ++
      [{ role := "user", content := message_content, model := "",
         timestamp := 0, stance := none, metadata := [] }] }

/-- The index expression of the enhanced loop body:
`list(self.config.agents.keys())[self.current_agent_index]` — note the
absence of a modulo on the read. -/
def enhNextAgentName (s : EnhState) : String :=
  (s.agents.map Prod.fst).getD s.current_agent_index ""

/-- One iteration of the loop body of
`EnhancedDebateEngine.generate_responses`: select the agent by raw index
(`IndexError` when out of range), adapt the strategy, generate the
strategic response (no client call!), run `_update_debate_state` — whose
only effect on this state is `_progress_debate_phase()` over the
unchanged conversation — and advance the cursor modulo the agent count.
Nothing is ever appended to `self.conversation` here. -/
def enhTurn (rArg rMod rPrem : Nat) (s : EnhState) :
    Except PyExc (EnhState × String) :=
  if s.current_agent_index < (s.agents.map Prod.fst).length then
    let agent_name := enhNextAgentName s
    let cfg := lookupAgent s.agents agent_name
    match adapt_debate_strategy s.argument_registry cfg s.current_phase rArg with
    | .error e => .error e
    | .ok (strategy, reg') =>
      match generate_strategic_response strategy rMod rPrem with
      | .error e => .error e
      | .ok response =>
          .ok ({ s with
                  argument_registry := reg'
                  current_phase :=
                    progress_debate_phase s.current_phase
                      (assistantCount s.conversation)
                  current_agent_index :=
                    (s.current_agent_index + 1) % s.agents.length },
               response)
  else .error (.otherException "IndexError: list index out of range")

/-- Per-turn randomness for the enhanced engine: the three
`random.choice` oracles for turn `t`. -/
def EnhRand : Type := Nat → Nat × Nat × Nat

/-- State evolution of `n` consecutive enhanced turns, with turn counter
`t` (also the state effect of the enhanced `generate_responses(n)`). -/
def runTurnsEAux (r : EnhRand) (t : Nat) (s : EnhState) :
    Nat → Except PyExc EnhState
  | 0 => .ok s
  | n + 1 =>
    match enhTurn (r t).1 (r t).2.1 (r t).2.2 s with
    | .error e => .error e
    | .ok (s1, _) => runTurnsEAux r (t + 1) s1 n

/-- `n` enhanced turns from the start of the sequence. -/
def runTurnsE (r : EnhRand) (s : EnhState) (n : Nat) : Except PyExc EnhState :=
  runTurnsEAux r 0 s n

/-- An externally triggerable operation on an enhanced engine. -/
inductive EnhOp where
  | userMsg (content : String)
  | turn (rArg rMod rPrem : Nat)
deriving DecidableEq, Repr

/-- Apply a sequence of engine operations; a raised exception aborts the
sequence (no operation after a raise, matching a crashed session). -/
def applyOps : List EnhOp → EnhState → Except PyExc EnhState
  | [], s => .ok s
  | .userMsg c :: rest, s => applyOps rest (addUserE s c)
  | .turn a m p :: rest, s =>
    match enhTurn a m p s with
    | .error e => .error e
    | .ok (s1, _) => applyOps rest s1

/-! ## Concrete demonstration inputs

Shared concrete data used by several closed theorems below: the shipped
two-agent configuration, a user topic, and simple client oracles. -/

/-- A client oracle whose completions always succeed with content
`"Reply"`. -/
def demoOracle : ClientOracle := fun _ _ => .response 200 (.withContent "Reply")

/-- A client oracle that fails on every call (transport failure). -/
def failOracle : ClientOracle := fun _ _ => .transportError "connection refused"

/-- A client oracle whose responses always have an empty `choices` list. -/
def emptyChoicesOracle : ClientOracle := fun _ _ => .response 200 .noChoices

/-- Per-turn randomness oracle fixing every `random.choice` pick at 0. -/
def zeros : EnhRand := fun _ => (0, 0, 0)

/-- A freshly constructed base engine over the shipped configuration,
with the user's debate topic added — the state right before the first
turn in `app.py`. -/
def baseStart : BaseState := add_user_message (initBase defaultAgents) "Is AI good?"

/-- The same starting point for the enhanced engine. -/
def enhStart : EnhState := addUserE (initEnh defaultAgents) "Is AI good?"

/-- A fallback base state (never reached in the theorems that use it). -/
def dummyBase : BaseState := initBase []

/-- A fallback enhanced state (never reached in the theorems that use it). -/
def dummyEnh : EnhState := initEnh []

/-- Four consecutive `generate_responses(1)` calls against the
always-failing client, as the UI button would issue them. -/
def fourFailingCalls : Except PyExc BaseState :=
  match generate_responses failOracle baseStart 1 with
  | .error e => .error e
  | .ok (s1, _) =>
    match generate_responses failOracle s1 1 with
    | .error e => .error e
    | .ok (s2, _) =>
      match generate_responses failOracle s2 1 with
      | .error e => .error e
      | .ok (s3, _) =>
        match generate_responses failOracle s3 1 with
        | .error e => .error e
        | .ok (s4, _) => .ok s4

/-- The engine state after the four failing calls. -/
def fourFailingFinal : BaseState := fourFailingCalls.toOption.getD dummyBase

/-- The base engine state after three successful turns. -/
def baseAfter3 : BaseState := (runTurnsB demoOracle baseStart 3).toOption.getD dummyBase

/-- The enhanced engine state after three turns. -/
def enhAfter3 : EnhState := (runTurnsE zeros enhStart 3).toOption.getD dummyEnh

/-- A short operation sequence on the enhanced engine: one user message,
then two turns. -/
def demoOps : List EnhOp := [.userMsg "And privacy?", .turn 0 0 0, .turn 1 2 3]

/-- The enhanced engine state after `demoOps`. -/
def afterDemoOps : EnhState := (applyOps demoOps (initEnh defaultAgents)).toOption.getD dummyEnh

/-- An argument structure with no premises. -/
def noPremisesArg : ArgumentStructure :=
  { premises := [], conclusion := "c", supporting_evidence := [],
    counter_arguments := [], fallback_positions := [] }

/-- The progressive agent's configuration. -/
def progressiveCfg : AgentCfg := lookupAgent defaultAgents "progressive"

/-- The strategy and registry produced by `_adapt_debate_strategy` on an
empty registry for the progressive agent. -/
def demoAdapt : Strategy × List (String × List ArgumentStructure) :=
  (adapt_debate_strategy [] progressiveCfg .opening 0).toOption.getD
    ({ rhetoric_style := "", argument_structure := defaultArgument "",
       emotional_tone := 0, strategic_focus := .opening }, [])

/-! ## Helper lemmas -/

/-- An `Except` whose `toOption` is `some x` is `.ok x`. -/
theorem exceptOfToOption {ε α : Type} {e : Except ε α} {x : α}
    (h : e.toOption = some x) : e = .ok x := by
  cases e with
  | ok a => simp [Except.toOption] at h; simp [h]
  | error b => simp [Except.toOption] at h

/-- `generate_response` always returns normally. -/
theorem generate_response_ok (o : CallOutcome) :
    ∃ s, generate_response o = .ok s := by
  unfold generate_response
  cases h : generate_response_try o with
  | ok s => exact ⟨s, rfl⟩
  | error e => cases e <;> exact ⟨_, rfl⟩

/-- Shape of a successful base turn: agents unchanged, cursor bumped by
one, exactly one message appended, exactly one client call made. -/
theorem baseTurn_shape {oracle : ClientOracle} {s s' : BaseState} {r : String}
    (h : baseTurn oracle s = .ok (s', r)) :
    s'.agents = s.agents ∧ s'.current_agent_index = s.current_agent_index + 1 ∧
    s'.conversation.length = s.conversation.length + 1 ∧
    s'.calls = s.calls + 1 ∧ s'.status = s.status ∧
    s'.error_count = s.error_count := by
  simp only [baseTurn, select_next_agent] at h
  split at h
  · exact absurd h (by simp)
  · split at h
    · exact absurd h (by simp)
    · simp only [Except.ok.injEq, Prod.mk.injEq] at h
      obtain ⟨h1, _⟩ := h
      subst h1
      refine ⟨rfl, rfl, ?_, rfl, rfl, rfl⟩
      simp

/-- Shape of a successful base run of `n` turns. -/
theorem runTurnsB_shape {oracle : ClientOracle} :
    ∀ {n : Nat} {s s' : BaseState}, runTurnsB oracle s n = .ok s' →
    s'.agents = s.agents ∧ s'.current_agent_index = s.current_agent_index + n ∧
    s'.conversation.length = s.conversation.length + n ∧
    s'.calls = s.calls + n ∧ s'.status = s.status ∧
    s'.error_count = s.error_count := by
  intro n
  induction n with
  | zero =>
    intro s s' h
    simp only [runTurnsB, Except.ok.injEq] at h
    subst h
    simp
  | succ n ih =>
    intro s s' h
    simp only [runTurnsB] at h
    split at h
    · exact absurd h (by simp)
    · rename_i s1 r heq
      obtain ⟨ha, hi, hc, hk, hs, he⟩ := ih h
      obtain ⟨ha2, hi2, hc2, hk2, hs2, he2⟩ := baseTurn_shape heq
      refine ⟨ha.trans ha2, ?_, ?_, ?_, hs.trans hs2, he.trans he2⟩ <;> omega

/-- Shape of a successful enhanced turn: agents, conversation, status and
client-call count unchanged; the cursor was in range and advances modulo
the agent count; the phase is updated by `_progress_debate_phase` over
the (unchanged) conversation. -/
theorem enhTurn_shape {a m p : Nat} {s s' : EnhState} {out : String}
    (h : enhTurn a m p s = .ok (s', out)) :
    s'.agents = s.agents ∧ s'.conversation = s.conversation ∧
    s'.status = s.status ∧ s'.calls = s.calls ∧
    s.current_agent_index < s.agents.length ∧
    s'.current_agent_index = (s.current_agent_index + 1) % s.agents.length ∧
    s'.current_phase =
      progress_debate_phase s.current_phase (assistantCount s.conversation) := by
  simp only [enhTurn, List.length_map] at h
  split at h
  · rename_i hlt
    split at h
    · exact absurd h (by simp)
    · split at h
      · exact absurd h (by simp)
      · simp only [Except.ok.injEq, Prod.mk.injEq] at h
        obtain ⟨h1, _⟩ := h
        subst h1
        exact ⟨rfl, rfl, rfl, rfl, hlt, rfl, rfl⟩
  · exact absurd h (by simp)

/-- Shape of a successful enhanced run of `n` turns starting with an
in-range cursor. -/
theorem runTurnsEAux_shape {r : EnhRand} :
    ∀ {n t : Nat} {s s' : EnhState}, runTurnsEAux r t s n = .ok s' →
    s.current_agent_index < s.agents.length →
    s'.agents = s.agents ∧ s'.conversation = s.conversation ∧
    s'.current_agent_index = (s.current_agent_index + n) % s.agents.length := by
  intro n
  induction n with
  | zero =>
    intro t s s' h hlt
    simp only [runTurnsEAux, Except.ok.injEq] at h
    subst h
    exact ⟨rfl, rfl, (Nat.mod_eq_of_lt hlt).symm⟩
  | succ n ih =>
    intro t s s' h hlt
    simp only [runTurnsEAux] at h
    split at h
    · exact absurd h (by simp)
    · rename_i s1 out heq
      obtain ⟨ha2, hc2, _, _, _, hi2, _⟩ := enhTurn_shape heq
      have hpos : 0 < s.agents.length := Nat.lt_of_le_of_lt (Nat.zero_le _) hlt
      have hlt1 : s1.current_agent_index < s1.agents.length := by
        rw [ha2, hi2]
        exact Nat.mod_lt _ hpos
      obtain ⟨ha, hc, hi⟩ := ih h hlt1
      refine ⟨ha.trans ha2, hc.trans hc2, ?_⟩
      rw [hi, ha2, hi2, Nat.mod_add_mod]
      congr 1
      omega

/-- Monotonicity of one application of the phase-transition table. -/
theorem rank_progress (p : DebatePhase) (n : Nat) :
    phaseRank p ≤ phaseRank (progress_debate_phase p n) := by
  cases p <;> unfold progress_debate_phase <;> split_ifs <;> simp_all [phaseRank]

/-- A tier returned by `confidenceTier` has a non-empty modifier list. -/
theorem confidenceTier_modifiers {c tier : ℚ} (h : confidenceTier c = .ok tier) :
    strengthModifiers tier ≠ [] := by
  unfold confidenceTier at h
  split_ifs at h <;> simp only [Except.ok.injEq] at h <;> subst h <;> decide

/-- `strengthen_argument` succeeds at confidence `0.7` whenever the
argument has at least one premise. -/
theorem strengthen_ok_q07 {a : ArgumentStructure} (hp : a.premises ≠ [])
    (rMod rPrem : Nat) : ∃ s, strengthen_argument a q07 rMod rPrem = .ok s := by
  have hlen : a.premises.length ≠ 0 := fun hc => hp (List.length_eq_zero.mp hc)
  unfold strengthen_argument confidenceTier
  rw [if_neg (by decide : ¬ q08 ≤ q07), if_pos (by decide : q06 ≤ q07)]
  simp [pyChoice, strengthModifiers, hlen, show q06 ≠ q08 by decide]

/-! ## The claims -/

/-- C1 (code_bug support): the `max_errors` policy declared by
`DebateEngine.__init__` is never enforced by `generate_responses`.  With a
client that fails on every call, four consecutive `generate_responses(1)`
calls all complete: the client is invoked on every one of the four calls
(`calls = 4`, including the 4th), the status never becomes
`DebateStatus.error` (it stays `not_started`), `error_count` stays `0`,
and each error string is appended to the transcript (length `2 + 1 + 4`).
The claimed transition to terminal error status after 3 consecutive
failures, and the rejection of the 4th call without a client invocation,
do not happen. -/
theorem max_errors_policy_not_enforced :
    fourFailingCalls.toOption = some fourFailingFinal ∧
    fourFailingFinal.calls = 4 ∧
    fourFailingFinal.status = .not_started ∧
    fourFailingFinal.error_count = 0 ∧
    fourFailingFinal.max_errors = 3 ∧
    fourFailingFinal.conversation.length = 7 := by decide

/-- C2 (code_bug support): over the shipped two-persona configuration
with one user topic message, four successful turns of the base engine
leave the transcript at length `2 + 1 + 4`, as the claim states; but four
turns of the enhanced engine leave it at length `2 + 1` — the enhanced
`generate_responses` never appends the generated message, refuting the
claim for the enhanced variant. -/
theorem transcript_growth_divergence :
    ((runTurnsB demoOracle baseStart 4).toOption.map fun s =>
      s.conversation.length) = some (2 + 1 + 4) ∧
    ((runTurnsE zeros enhStart 4).toOption.map fun s =>
      s.conversation.length) = some (2 + 1) := by decide

/-- C3: speaker selection is strictly round-robin in both engine
variants: after any `i` successful turns from a fresh engine (personas
seeded, one user topic message), the persona that the next turn selects
is `personas[i mod persona_count]`. -/
theorem round_robin_selection :
    (∀ (agents : List (String × AgentCfg)) (topic : String)
       (oracle : ClientOracle) (i : Nat) (s' : BaseState),
       runTurnsB oracle (add_user_message (initBase agents) topic) i = .ok s' →
       selectNextAgentName s' = (agents.map Prod.fst).getD (i % agents.length) "") ∧
    (∀ (agents : List (String × AgentCfg)) (topic : String)
       (r : EnhRand) (i : Nat) (s' : EnhState),
       agents ≠ [] →
       runTurnsE r (addUserE (initEnh agents) topic) i = .ok s' →
       enhNextAgentName s' = (agents.map Prod.fst).getD (i % agents.length) "") := by
  constructor
  · intro agents topic oracle i s' h
    obtain ⟨ha, hi, -, -, -, -⟩ := runTurnsB_shape h
    simp only [add_user_message, initBase] at ha hi
    unfold selectNextAgentName
    rw [ha, hi]
    simp
  · intro agents topic r i s' hne h
    have hlt : (addUserE (initEnh agents) topic).current_agent_index <
        (addUserE (initEnh agents) topic).agents.length := by
      simp only [addUserE, initEnh]
      exact List.length_pos.mpr hne
    obtain ⟨ha, -, hi⟩ := runTurnsEAux_shape h hlt
    simp only [addUserE, initEnh] at ha hi
    unfold enhNextAgentName
    rw [ha, hi]
    simp

/-- C3 witness: after three turns over the shipped two-agent
configuration, both variants select agent `3 mod 2 = 1`, the
conservative. -/
theorem round_robin_selection_witness :
    selectNextAgentName baseAfter3 = "conservative" ∧
    enhNextAgentName enhAfter3 = "conservative" := by
  constructor
  · exact (round_robin_selection.1 defaultAgents "Is AI good?" demoOracle 3
      baseAfter3 (exceptOfToOption (by decide))).trans (by decide)
  · exact (round_robin_selection.2 defaultAgents "Is AI good?" zeros 3
      enhAfter3 (by decide) (exceptOfToOption (by decide))).trans (by decide)

/-- C4 (code_bug support): because the enhanced `generate_responses`
never appends its generated message to the conversation, ten enhanced
turns from a fresh engine leave the transcript with zero assistant
messages, the conversation exactly as it started, and the phase still
`opening` — the phase-transition check runs once per turn but no "new
message is appended" before it, so the claimed progression (exploration
at ≥3 assistant messages, …, reflection at ≥10) never begins. -/
theorem phase_progression_starved :
    ((runTurnsE zeros enhStart 10).toOption.map fun s =>
      assistantCount s.conversation) = some 0 ∧
    ((runTurnsE zeros enhStart 10).toOption.map fun s =>
      s.current_phase) = some .opening ∧
    ((runTurnsE zeros enhStart 10).toOption.map fun s =>
      s.conversation) = some enhStart.conversation := by decide

/-- C5: the debate phase is monotone non-decreasing under
opening < exploration < confrontation < resolution < reflection: a single
application of the transition table never lowers the rank, and no
sequence of engine operations (user messages and turns) ever lowers it. -/
theorem phase_monotone :
    (∀ (p : DebatePhase) (n : Nat),
       phaseRank p ≤ phaseRank (progress_debate_phase p n)) ∧
    (∀ (ops : List EnhOp) (s s' : EnhState), applyOps ops s = .ok s' →
       phaseRank s.current_phase ≤ phaseRank s'.current_phase) := by
  refine ⟨rank_progress, ?_⟩
  intro ops
  induction ops with
  | nil =>
    intro s s' h
    simp only [applyOps, Except.ok.injEq] at h
    subst h
    exact Nat.le_refl _
  | cons op rest ih =>
    intro s s' h
    cases op with
    | userMsg c =>
      simp only [applyOps] at h
      exact ih (addUserE s c) s' h
    | turn a m p =>
      simp only [applyOps] at h
      split at h
      · exact absurd h (by simp)
      · rename_i s1 out heq
        obtain ⟨-, -, -, -, -, -, hp⟩ := enhTurn_shape heq
        calc phaseRank s.current_phase
            ≤ phaseRank s1.current_phase := by
              rw [hp]; exact rank_progress _ _
          _ ≤ phaseRank s'.current_phase := ih s1 s' h

/-- C5 witness: one application of the table from `opening` at count 5,
and a concrete operation sequence (a user message and two turns) on the
shipped configuration. -/
theorem phase_monotone_witness :
    phaseRank DebatePhase.opening ≤ phaseRank (progress_debate_phase .opening 5) ∧
    phaseRank (initEnh defaultAgents).current_phase ≤
      phaseRank afterDemoOps.current_phase :=
  ⟨phase_monotone.1 .opening 5,
   phase_monotone.2 demoOps (initEnh defaultAgents) afterDemoOps
     (exceptOfToOption (by decide))⟩

/-- C6: the Response Client's `generate_response` never raises to its
caller: every call outcome produces a normal string return, and transport
failures, HTTP error statuses, malformed JSON and malformed choice shapes
are all converted to the descriptive
`"Error generating response: ..."` string. -/
theorem client_never_raises :
    (∀ o : CallOutcome, ∃ s, generate_response o = .ok s) ∧
    (∀ m : String, generate_response (.transportError m) =
       .ok ("Error generating response: " ++ m)) ∧
    (∀ (status : Nat) (body : BodyShape), 400 ≤ status →
       ∃ m, generate_response (.response status body) =
         .ok ("Error generating response: " ++ m)) ∧
    (∀ (status : Nat) (m : String), status < 400 →
       generate_response (.response status (.invalidJson m)) =
         .ok ("Error generating response: " ++ m)) ∧
    (∀ (status : Nat) (m : String), status < 400 →
       generate_response (.response status (.malformedChoice m)) =
         .ok ("Error generating response: " ++ m)) := by
  refine ⟨generate_response_ok, fun m => rfl, ?_, ?_, ?_⟩
  · intro status body h
    refine ⟨"HTTP error " ++ toString status, ?_⟩
    simp [generate_response, generate_response_try, raise_for_status, h]
  · intro status m h
    simp [generate_response, generate_response_try, raise_for_status,
      Nat.not_le.mpr h]
  · intro status m h
    simp [generate_response, generate_response_try, raise_for_status,
      Nat.not_le.mpr h]

/-- C6 witness: concrete instances of each failure conversion. -/
theorem client_never_raises_witness :
    (∃ s, generate_response (.response 200 (.withContent "hello")) = .ok s) ∧
    generate_response (.transportError "connection refused") =
      .ok ("Error generating response: " ++ "connection refused") ∧
    (∃ m, generate_response (.response 500 .noChoices) =
      .ok ("Error generating response: " ++ m)) ∧
    generate_response (.response 200 (.invalidJson "Expecting value")) =
      .ok ("Error generating response: " ++ "Expecting value") ∧
    generate_response (.response 200 (.malformedChoice "KeyError")) =
      .ok ("Error generating response: " ++ "KeyError") :=
  ⟨client_never_raises.1 _,
   client_never_raises.2.1 "connection refused",
   client_never_raises.2.2.1 500 .noChoices (by decide),
   client_never_raises.2.2.2.1 200 "Expecting value" (by decide),
   client_never_raises.2.2.2.2 200 "KeyError" (by decide)⟩

/-- C7: an empty `choices` list (and likewise whitespace-only content)
makes the client return the defined sentinel text rather than an error,
and a base-engine turn against such a client appends an assistant message
whose content is exactly the sentinel, raising no exception. -/
theorem empty_response_sentinel :
    generate_response (.response 200 .noChoices) = .ok emptyResponseText ∧
    (∀ (status : Nat) (s : String), status < 400 → pyStrip s = "" →
       generate_response (.response status (.withContent s)) =
         .ok emptyResponseText) ∧
    (∀ st : BaseState, st.agents ≠ [] →
       ∃ s' msg, baseTurn emptyChoicesOracle st = .ok (s', emptyResponseText) ∧
         s'.conversation = st.conversation ++ [msg] ∧
         msg.content = emptyResponseText ∧ msg.role = "assistant") := by
  refine ⟨rfl, ?_, ?_⟩
  · intro status s h1 h2
    simp [generate_response, generate_response_try, raise_for_status,
      Nat.not_le.mpr h1, h2]
  · intro st hne
    simp only [baseTurn, select_next_agent]
    rw [if_neg hne]
    exact ⟨_, _, rfl, rfl, rfl, rfl⟩

/-- C7 witness: whitespace-only content at status 200, and a turn from
the shipped starting state. -/
theorem empty_response_sentinel_witness :
    generate_response (.response 200 (.withContent "   ")) =
      .ok emptyResponseText ∧
    (∃ s' msg, baseTurn emptyChoicesOracle baseStart = .ok (s', emptyResponseText) ∧
       s'.conversation = baseStart.conversation ++ [msg] ∧
       msg.content = emptyResponseText ∧ msg.role = "assistant") :=
  ⟨empty_response_sentinel.2.1 200 "   " (by decide) (by decide),
   empty_response_sentinel.2.2 baseStart (by decide)⟩

/-- C8: `Message.from_dict (m.to_dict)` restores the message exactly —
role, content, model, timestamp, stance (including the absent-stance
case) and metadata are all preserved. -/
theorem message_roundtrip (m : Message) :
    Message.from_dict (Message.to_dict m) = some m := by
  obtain ⟨role, content, model, ts, stance, md⟩ := m
  cases stance with
  | none => rfl
  | some st => cases st <;> rfl

/-- C9 counterexample: the outbound request body built by the client
contains only `model`, `messages`, `max_tokens` and `temperature`; it
does not contain `top_p`, `frequency_penalty` or `presence_penalty`,
refuting the claim that all five generation parameters are passed. -/
theorem request_omits_tuning_params :
    "top_p" ∉ (buildRequest {} [] "m").keys ∧
    "frequency_penalty" ∉ (buildRequest {} [] "m").keys ∧
    "presence_penalty" ∉ (buildRequest {} [] "m").keys := by decide

/-- C9 (amended): every outbound request contains the ordered message
list, the model identifier, and the `max_tokens` and `temperature`
configuration values verbatim — and exactly those four keys; the
configured `top_p`, `frequency_penalty` and `presence_penalty` are not
included. -/
theorem request_contents_amended :
    ∀ (cfg : AppCfg) (messages : List MessageDict) (model : String),
      (buildRequest cfg messages model).model = model ∧
      (buildRequest cfg messages model).messages = messages ∧
      (buildRequest cfg messages model).max_tokens = cfg.max_tokens ∧
      (buildRequest cfg messages model).temperature = cfg.temperature ∧
      (buildRequest cfg messages model).keys =
        ["model", "messages", "max_tokens", "temperature"] :=
  fun _ _ _ => ⟨rfl, rfl, rfl, rfl, rfl⟩

/-- C10: `strengthen_argument` has the unstated precondition
`confidence ≥ 0.4` and non-empty premises: below `0.4` the `max()` over
an empty generator raises, and with no premises `random.choice` raises;
but `_adapt_debate_strategy` always fixes `emotional_tone = 0.7`, so the
strategic response generation succeeds whenever the chosen argument has
at least one premise. -/
theorem strengthen_argument_precondition :
    (∀ (a : ArgumentStructure) (confidence : ℚ) (rMod rPrem : Nat),
       confidence < q04 →
       ∃ e, strengthen_argument a confidence rMod rPrem = .error e) ∧
    (∀ (a : ArgumentStructure) (confidence : ℚ) (rMod rPrem : Nat),
       a.premises = [] →
       ∃ e, strengthen_argument a confidence rMod rPrem = .error e) ∧
    (∀ (reg : List (String × List ArgumentStructure)) (cfg : AgentCfg)
       (phase : DebatePhase) (rArg : Nat) (strategy : Strategy)
       (reg' : List (String × List ArgumentStructure)),
       adapt_debate_strategy reg cfg phase rArg = .ok (strategy, reg') →
       strategy.emotional_tone = q07 ∧
       ∀ (rMod rPrem : Nat), strategy.argument_structure.premises ≠ [] →
         ∃ s, generate_strategic_response strategy rMod rPrem = .ok s) := by
  refine ⟨?_, ?_, ?_⟩
  · intro a c rM rP h
    have h8 : ¬ q08 ≤ c := not_le.mpr (lt_of_lt_of_le h (by decide))
    have h6 : ¬ q06 ≤ c := not_le.mpr (lt_of_lt_of_le h (by decide))
    have h4 : ¬ q04 ≤ c := not_le.mpr h
    unfold strengthen_argument confidenceTier
    rw [if_neg h8, if_neg h6, if_neg h4]
    exact ⟨_, rfl⟩
  · intro a c rM rP hp
    unfold strengthen_argument
    cases ht : confidenceTier c with
    | error e => exact ⟨e, rfl⟩
    | ok tier =>
      have hm := confidenceTier_modifiers ht
      have hlen : (strengthModifiers tier).length ≠ 0 :=
        fun hc => hm (List.length_eq_zero.mp hc)
      refine ⟨.otherException "IndexError: list index out of range", ?_⟩
      simp [pyChoice, hp, hlen]
  · intro reg cfg phase rArg strategy reg' h
    simp only [adapt_debate_strategy] at h
    split at h
    · exact absurd h (by simp)
    · rename_i argument heq
      simp only [Except.ok.injEq, Prod.mk.injEq] at h
      obtain ⟨h1, -⟩ := h
      subst h1
      refine ⟨rfl, ?_⟩
      intro rM rP hp
      exact strengthen_ok_q07 hp rM rP

/-- C10 witness: confidence `0.2` raises, empty premises raise, and the
strategy adapted for the progressive agent carries tone `0.7` and
succeeds. -/
theorem strengthen_argument_precondition_witness :
    (∃ e, strengthen_argument (defaultArgument "X") q02 0 0 = .error e) ∧
    (∃ e, strengthen_argument noPremisesArg q095 1 2 = .error e) ∧
    (demoAdapt.1.emotional_tone = q07 ∧
     ∃ s, generate_strategic_response demoAdapt.1 0 0 = .ok s) := by
  refine ⟨strengthen_argument_precondition.1 (defaultArgument "X") q02 0 0
      (by decide),
    strengthen_argument_precondition.2.1 noPremisesArg q095 1 2 rfl, ?_⟩
  have h := strengthen_argument_precondition.2.2 [] progressiveCfg .opening 0
    demoAdapt.1 demoAdapt.2 (exceptOfToOption (by decide))
  exact ⟨h.1, h.2 0 0 (by decide)⟩

end DebateAI
